import Mathlib

/-!
Verification development for the Czarina LLM monitor daemon
(`czarina-core/llm-monitor-daemon.py`).

The daemon watches a fleet of worker sessions, classifies each stale
worker through an external LLM classifier, executes or suppresses the
recommended action, and appends every executed decision to a dual-format
audit log.  The Python source is shallowly embedded below: every
external effect (subprocess results, LLM call outcomes, log appends,
keystroke sends) is made explicit as data, timestamps are natural
numbers counting whole seconds, and the classifier decision dict is a
structure whose string fields are kept raw exactly as the source keeps
them.  Diagnostic `logging.info`/`logging.debug` text is not modelled,
except that the elevated-severity escalation entry of
`LLMMonitorDaemon.analyze_worker` is recorded as a boolean flag, and
cost/token accounting (the cost and tokens entries stored on the
result dict, and the running request/cost counters) is omitted because
no property below depends on it.
-/

/-- A classifier decision as consumed downstream (the dict returned by
`WorkerAnalyzer.analyze_worker`).  The `status` and `action` fields are
raw strings, as in the source; `keys` and `reasoning` may be absent
(`dict.get` returns `None`). -/
structure Analysis where
  status : String
  action : String
  keys : Option String
  reasoning : Option String
  confidence : Nat
  deriving Repr, DecidableEq

/-- The closed status enumeration the classifier prompt demands
(`working|stuck|waiting|complete|confused|error`). -/
def validStatuses : List String :=
  ["working", "stuck", "waiting", "complete", "confused", "error"]

/-- The closed action enumeration the classifier prompt demands
(`approve|send_keys|intervene|none`). -/
def validActions : List String :=
  ["approve", "send_keys", "intervene", "none"]

/-- The JSON object obtained when `json.loads` succeeds on the
classifier response: each expected key may be present or absent. -/
structure ParsedResponse where
  status : Option String
  action : Option String
  keys : Option String
  reasoning : Option String
  confidence : Option Nat
  deriving Repr, DecidableEq

/-- Outcome of one classifier call as observed at the `try` block of
`WorkerAnalyzer.analyze_worker`: the call returned and its body parsed
as a JSON object, or `json.loads` raised `JSONDecodeError`, or the call
itself raised (timeout or any other exception), carrying the exception
message. -/
inductive CallOutcome where
  | parsed (r : ParsedResponse)
  | parseError (e : String)
  | callError (e : String)
  deriving Repr, DecidableEq

/-- `WorkerAnalyzer.analyze_worker` (lines 155-270).  On a parsed
response the source immediately reads the status, action and
confidence entries of the result dict in its logging call, so a
response missing any of those keys raises `KeyError`, which the generic
`except Exception` handler turns into the synthesized error decision;
a response carrying all three is returned as-is, with no validation of
the values.  `json.JSONDecodeError` and every other exception are
converted to a `status=error, action=none, confidence=0` decision whose
reasoning embeds the exception text. -/
def WorkerAnalyzer.analyze_worker : CallOutcome → Analysis
  | .parsed r =>
    match r.status, r.action, r.confidence with
    | some s, some a, some c =>
      { status := s, action := a, keys := r.keys,
        reasoning := r.reasoning, confidence := c }
    | _, _, _ =>
      { status := "error", action := "none", keys := none,
        reasoning := some "Analysis failed: KeyError", confidence := 0 }
  | .parseError e =>
    { status := "error", action := "none", keys := none,
      reasoning := some ("Failed to parse LLM response: " ++ e),
      confidence := 0 }
  | .callError e =>
    { status := "error", action := "none", keys := none,
      reasoning := some ("Analysis failed: " ++ e), confidence := 0 }

/-- Per-worker tracked state (`WorkerState.__init__`).  `last_activity`
is an absolute timestamp in whole seconds; `status` starts as the
string STARTING and is overwritten with the raw classifier status
string. -/
structure WorkerState where
  worker_id : String
  window_num : Nat
  last_activity : Nat
  status : String
  consecutive_stuck_count : Nat
  last_analysis : Option Analysis
  deriving Repr, DecidableEq

/-- `WorkerState.update_activity`: stamp the current time and clear the
stuck streak. -/
def WorkerState.update_activity (w : WorkerState) (now : Nat) : WorkerState :=
  { w with last_activity := now, consecutive_stuck_count := 0 }

/-- `WorkerState.is_stale` evaluates
`(datetime.now() - self.last_activity).seconds > threshold_seconds`.
For a non-negative interval, the Python `timedelta.seconds` attribute is
the seconds component of the normalized (days, seconds, microseconds)
triple: the whole elapsed seconds reduced modulo 86400, not the total
elapsed time. -/
def WorkerState.is_stale (w : WorkerState) (now : Nat)
    (threshold_seconds : Nat) : Bool :=
  (now - w.last_activity) % 86400 > threshold_seconds

/-- Outcome of one `subprocess.run` invocation as observed by its
caller: the process completed with an exit status and captured stdout,
or the call raised (`TimeoutExpired` or any other exception). -/
inductive SubprocOutcome where
  | completed (returncode : Int) (stdout : String)
  | raised (e : String)
  deriving Repr, DecidableEq

/-- `TmuxInterface.capture_pane` (lines 99-114): return the captured
stdout on exit status 0, `None` on any non-zero exit status, and `None`
(after logging) when the subprocess call raises. -/
def TmuxInterface.capture_pane (_window : Nat) (_lines : Nat) :
    SubprocOutcome → Option String
  | .completed rc out => if rc = 0 then some out else none
  | .raised _ => none

/-- One audit-log record as assembled by `ActionExecutor._log_decision`
from the decision dict (timestamp omitted; cost/token fields omitted,
see the module header). -/
structure DecisionRecord where
  worker : String
  status : String
  action : String
  keys : Option String
  reasoning : Option String
  confidence : Nat
  deriving Repr, DecidableEq

/-- `ActionExecutor._log_decision` (lines 330-358): build the decision
record that is appended once to the human-readable log and once to the
machine-readable JSONL log. -/
def ActionExecutor.log_decision (worker_id : String)
    (analysis : Analysis) : DecisionRecord :=
  { worker := worker_id, status := analysis.status,
    action := analysis.action, keys := analysis.keys,
    reasoning := analysis.reasoning, confidence := analysis.confidence }

/-- How one `ActionExecutor.execute` call ends: a normal return with
the boolean result, or a `KeyError` escaping from one of the
`analysis` reasoning subscripts (source lines 299 and 316) when the
decision has no reasoning key.  That exception propagates out of
`execute`, past the stuck-count update of
`LLMMonitorDaemon.analyze_worker`, and out of the daemon loop, which
catches only `KeyboardInterrupt`. -/
inductive ExecReturn where
  | ok (result : Bool)
  | keyError
  deriving Repr, DecidableEq

/-- The observable effects of one `ActionExecutor.execute` call: the
records appended to the human-readable log and to the JSONL log, the
`send_keys` invocations forwarded to tmux (window, keystroke payload),
and how the call ended. -/
structure ExecEffects where
  humanLog : List DecisionRecord
  jsonLog : List DecisionRecord
  sentKeys : List (Nat × String)
  outcome : ExecReturn
  deriving Repr, DecidableEq

/-- Whether the call ended in the escaped `KeyError`. -/
def ExecEffects.raisedKeyError (e : ExecEffects) : Bool :=
  match e.outcome with
  | .keyError => true
  | .ok _ => false

/-- `ActionExecutor.execute` (lines 285-328).  `_log_decision` runs
first, unconditionally; then `action=none` returns success with no
further effect; `action=intervene` formats a warning that subscripts
the reasoning key — raising `KeyError` when it is absent — and returns
failure; a disabled `auto_approve` switch logs a skip (subscripting
nothing) and returns failure; `approve`/`send_keys` resolve the payload
(defaulting to `C-m`), format a log line that subscripts the reasoning
key — raising `KeyError`, before any keystroke is sent, when it is
absent — then forward the payload to tmux and mirror the tmux result
(`send_keys_ok`); any other action string falls through to failure. -/
def ActionExecutor.execute (auto_approve : Bool) (send_keys_ok : Bool)
    (worker_id : String) (window : Nat) (analysis : Analysis) :
    ExecEffects :=
  let both := [ActionExecutor.log_decision worker_id analysis]
  let action := analysis.action
  if action = "none" then
    { humanLog := both, jsonLog := both, sentKeys := [],
      outcome := .ok true }
  else if action = "intervene" then
    match analysis.reasoning with
    | some _ =>
      { humanLog := both, jsonLog := both, sentKeys := [],
        outcome := .ok false }
    | none =>
      { humanLog := both, jsonLog := both, sentKeys := [],
        outcome := .keyError }
  else if ¬ auto_approve then
    { humanLog := both, jsonLog := both, sentKeys := [],
      outcome := .ok false }
  else if action = "approve" ∨ action = "send_keys" then
    let keys := analysis.keys.getD "C-m"
    match analysis.reasoning with
    | some _ =>
      { humanLog := both, jsonLog := both, sentKeys := [(window, keys)],
        outcome := .ok send_keys_ok }
    | none =>
      { humanLog := both, jsonLog := both, sentKeys := [],
        outcome := .keyError }
  else
    { humanLog := both, jsonLog := both, sentKeys := [],
      outcome := .ok false }

/-- Result of the decision-handling tail of
`LLMMonitorDaemon.analyze_worker`: the updated worker state, the
effects of the executor when it was invoked at all (`none` when it
was skipped), whether the elevated-severity escalation log entry was
emitted on this pass, and whether the executor raised the `KeyError`
that aborts the pass (and the daemon) before the stuck-count update. -/
structure PassResult where
  worker : WorkerState
  effects : Option ExecEffects
  escalated : Bool
  raised : Bool
  deriving Repr, DecidableEq

/-- Lines 562-578 of `LLMMonitorDaemon.analyze_worker`: store the
analysis, overwrite `worker.status` with the raw classifier status,
invoke `ActionExecutor.execute` only when the decision action differs
from the string none, then increment `consecutive_stuck_count` when the status is
`stuck` or `confused` (emitting the escalation entry once the counter
reaches 3) and reset it to 0 otherwise.  When the executor raises
`KeyError` (a reasoning-less decision reaching one of the subscripts at
lines 299/316), the exception propagates: the stuck-count update at
lines 569-578 never runs, the counter keeps its prior value, no
escalation fires, and the daemon loop — which catches only
`KeyboardInterrupt` — dies. -/
def LLMMonitorDaemon.apply_analysis (auto_approve : Bool)
    (send_keys_ok : Bool) (w : WorkerState) (analysis : Analysis) :
    PassResult :=
  let w1 := { w with last_analysis := some analysis,
                     status := analysis.status }
  let effects :=
    if analysis.action ≠ "none" then
      some (ActionExecutor.execute auto_approve send_keys_ok
        w1.worker_id w1.window_num analysis)
    else none
  let raised : Bool :=
    match effects with
    | some e => e.raisedKeyError
    | none => false
  if raised then
    { worker := w1, effects := effects, escalated := false,
      raised := true }
  else if analysis.status = "stuck" ∨ analysis.status = "confused" then
    let count := w1.consecutive_stuck_count + 1
    { worker := { w1 with consecutive_stuck_count := count },
      effects := effects, escalated := count ≥ 3, raised := false }
  else
    { worker := { w1 with consecutive_stuck_count := 0 },
      effects := effects, escalated := false, raised := false }

/-- `LLMMonitorDaemon.analyze_worker` (lines 512-578) for a worker that
is tracked: return `none` (no classification pass completes) when
monitoring is disabled or when the captured terminal output is `None`
or empty (the Python falsiness test on the captured text); otherwise run the
classifier on the given call outcome and handle its decision. -/
def LLMMonitorDaemon.analyze_worker (enabled : Bool)
    (auto_approve : Bool) (send_keys_ok : Bool) (w : WorkerState)
    (terminal_output : Option String) (outcome : CallOutcome) :
    Option PassResult :=
  if ¬ enabled then none
  else if terminal_output.getD "" = "" then none
  else some (LLMMonitorDaemon.apply_analysis auto_approve send_keys_ok
    w (WorkerAnalyzer.analyze_worker outcome))

/-- `LLMMonitorDaemon.check_stale_workers` (lines 580-587): one timer
tick.  Returns, in iteration order, the ids of the workers for which
`self.analyze_worker(worker_id)` is called: those whose `is_stale`
check passes and whose status is neither COMPLETE nor STUCK.  The loop
body for one worker: `some worker_id` when a classification pass is
triggered for it, `none` otherwise. -/
def LLMMonitorDaemon.stale_trigger (now : Nat) (stale_threshold : Nat)
    (w : WorkerState) : Option String :=
  if w.is_stale now stale_threshold then
    if w.status ∈ (["COMPLETE", "STUCK"] : List String) then none
    else some w.worker_id
  else none

/-- `LLMMonitorDaemon.check_stale_workers` as a whole tick: the ids of
all workers analyzed, in iteration order. -/
def LLMMonitorDaemon.check_stale_workers (now : Nat)
    (stale_threshold : Nat) (workers : List WorkerState) :
    List String :=
  workers.filterMap (LLMMonitorDaemon.stale_trigger now stale_threshold)

/-- Records appended to the human-readable log by one decision-handling
pass (empty when the executor was skipped). -/
def PassResult.humanAppends (p : PassResult) : List DecisionRecord :=
  match p.effects with
  | some e => e.humanLog
  | none => []

/-- Records appended to the machine-readable JSONL log by one
decision-handling pass (empty when the executor was skipped). -/
def PassResult.jsonAppends (p : PassResult) : List DecisionRecord :=
  match p.effects with
  | some e => e.jsonLog
  | none => []

/-- Run the decision-handling tail over a chronological sequence of
classifier decisions for one worker, returning the final worker state
and the per-pass results in order.  A pass whose executor call raises
kills the daemon, so no later decision of the sequence is processed. -/
def LLMMonitorDaemon.processRun (auto_approve : Bool)
    (send_keys_ok : Bool) (w : WorkerState) :
    List Analysis → WorkerState × List PassResult
  | [] => (w, [])
  | a :: rest =>
    let p := LLMMonitorDaemon.apply_analysis auto_approve send_keys_ok w a
    if p.raised then (p.worker, [p])
    else
      let (w2, ps) :=
        LLMMonitorDaemon.processRun auto_approve send_keys_ok p.worker rest
      (w2, p :: ps)

/-! ## Shared lemmas -/

/-- A decision carrying a reasoning key never hits the `KeyError` in
`ActionExecutor.execute`: every branch either avoids the reasoning
subscripts or finds the key present. -/
lemma execute_ok_of_reasoning (aa sk : Bool) (worker_id : String)
    (window : Nat) (a : Analysis) (r : String)
    (hr : a.reasoning = some r) :
    (ActionExecutor.execute aa sk worker_id window a).raisedKeyError
      = false := by
  unfold ActionExecutor.execute ExecEffects.raisedKeyError
  by_cases h1 : a.action = "none" <;>
    by_cases h2 : a.action = "intervene" <;>
      by_cases h3 : a.action = "approve" ∨ a.action = "send_keys" <;>
        cases aa <;> simp [h1, h2, h3, hr]

/-- The decision-handling tail on a `stuck`/`confused` status, for a
decision that completes its pass (action none, so the executor is
skipped, or reasoning present, so no subscript raises): the streak
counter increments, the escalation entry fires exactly when the
incremented counter reaches 3, the stored status is the raw classifier
status, and nothing aborts the pass. -/
lemma apply_analysis_stuck (aa sk : Bool) (w : WorkerState) (a : Analysis)
    (h : a.status = "stuck" ∨ a.status = "confused")
    (hc : a.action = "none" ∨ ∃ r, a.reasoning = some r) :
    (LLMMonitorDaemon.apply_analysis aa sk w a).worker.consecutive_stuck_count
      = w.consecutive_stuck_count + 1 ∧
    (LLMMonitorDaemon.apply_analysis aa sk w a).escalated
      = decide (w.consecutive_stuck_count + 1 ≥ 3) ∧
    (LLMMonitorDaemon.apply_analysis aa sk w a).worker.status = a.status ∧
    (LLMMonitorDaemon.apply_analysis aa sk w a).raised = false := by
  by_cases hn : a.action = "none"
  · rcases h with h | h <;> simp [LLMMonitorDaemon.apply_analysis, h, hn]
  · rcases hc with hc | ⟨r, hr⟩
    · exact absurd hc hn
    · rcases h with h | h <;>
        simp [LLMMonitorDaemon.apply_analysis, h, hn, hr,
          execute_ok_of_reasoning aa sk w.worker_id w.window_num a r hr]

/-- A triggered id is always the id of the worker that produced it. -/
lemma stale_trigger_eq_some (now thr : Nat) (u : WorkerState) (x : String)
    (h : LLMMonitorDaemon.stale_trigger now thr u = some x) :
    x = u.worker_id := by
  unfold LLMMonitorDaemon.stale_trigger at h
  by_cases hs : u.is_stale now thr = true
  · by_cases hm : u.status ∈ (["COMPLETE", "STUCK"] : List String)
    · simp [hs, hm] at h
    · simp [hs, hm] at h
      exact h.symm
  · simp [hs] at h

/-- Every id analyzed on a tick belongs to some tracked worker. -/
lemma mem_check_stale_mem_ids (now thr : Nat) (ws : List WorkerState)
    (x : String)
    (hx : x ∈ LLMMonitorDaemon.check_stale_workers now thr ws) :
    x ∈ ws.map WorkerState.worker_id := by
  rw [LLMMonitorDaemon.check_stale_workers, List.mem_filterMap] at hx
  obtain ⟨u, hu, hfu⟩ := hx
  rw [stale_trigger_eq_some now thr u x hfu]
  exact List.mem_map_of_mem WorkerState.worker_id hu

/-! ## Claims -/

/-- Claim C1.  The claim states that every classification pass records
its decision via ActionExecutor even when the action is NONE, so that N
decisions give N lines in each log form.  The code violates this:
`LLMMonitorDaemon.analyze_worker` invokes the executor only when the
action differs from `none`, so a pass whose decision carries
action `none` appends zero records to both audit-log forms.  This
theorem evaluates the embedded code on such a pass: monitoring enabled,
terminal output present, classifier successfully returning a
`working`/`none` decision. -/
theorem none_action_pass_appends_no_records :
    (LLMMonitorDaemon.analyze_worker true true true
        ⟨"doc-1", 1, 0, "STARTING", 0, none⟩
        (some "$ all tests passing")
        (CallOutcome.parsed ⟨some "working", some "none", none,
          some "agent progressing", some 80⟩)).map PassResult.effects
      = some none ∧
    (LLMMonitorDaemon.analyze_worker true true true
        ⟨"doc-1", 1, 0, "STARTING", 0, none⟩
        (some "$ all tests passing")
        (CallOutcome.parsed ⟨some "working", some "none", none,
          some "agent progressing", some 80⟩)).map PassResult.humanAppends
      = some [] ∧
    (LLMMonitorDaemon.analyze_worker true true true
        ⟨"doc-1", 1, 0, "STARTING", 0, none⟩
        (some "$ all tests passing")
        (CallOutcome.parsed ⟨some "working", some "none", none,
          some "agent progressing", some 80⟩)).map PassResult.jsonAppends
      = some [] := by
  decide

/-- Claim C2, counterexample.  The claim asserts that every stale
worker whose status is not COMPLETE gets a classification pass, but
`check_stale_workers` also skips status STUCK: a worker idle 400s
against a 300s threshold with status STUCK is stale and not COMPLETE,
yet no pass is triggered for it on the tick. -/
theorem stale_stuck_worker_not_classified :
    (⟨"doc-1", 1, 0, "STUCK", 0, none⟩ : WorkerState).is_stale 400 300
      = true ∧
    (⟨"doc-1", 1, 0, "STUCK", 0, none⟩ : WorkerState).status ≠ "COMPLETE" ∧
    LLMMonitorDaemon.check_stale_workers 400 300
      [⟨"doc-1", 1, 0, "STUCK", 0, none⟩] = [] := by
  constructor
  · decide
  constructor
  · decide
  · decide

/-- Claim C2 as amended: on a timer tick, every tracked worker whose
`is_stale` check passes and whose status is neither COMPLETE nor STUCK
gets exactly one classification pass (worker ids assumed distinct, as
they are keys of the worker dict); in particular a worker idle 400s
against a 300s threshold with status WORKING is classified regardless
of prior STUCK/CONFUSED history. -/
theorem stale_noncomplete_nonstuck_classified_once (now thr : Nat)
    (ws : List WorkerState) (w : WorkerState)
    (hmem : w ∈ ws)
    (hnodup : (ws.map WorkerState.worker_id).Nodup)
    (hstale : w.is_stale now thr = true)
    (hstatus : w.status ∉ (["COMPLETE", "STUCK"] : List String)) :
    (LLMMonitorDaemon.check_stale_workers now thr ws).count w.worker_id
      = 1 := by
  induction ws with
  | nil => cases hmem
  | cons v vs ih =>
    rw [List.map_cons, List.nodup_cons] at hnodup
    rw [LLMMonitorDaemon.check_stale_workers, List.filterMap_cons]
    rcases List.mem_cons.mp hmem with heq | hmem2
    · subst heq
      have hft : LLMMonitorDaemon.stale_trigger now thr w
          = some w.worker_id := by
        simp [LLMMonitorDaemon.stale_trigger, hstale, hstatus]
      rw [hft]
      have hrest : (LLMMonitorDaemon.check_stale_workers now thr vs).count
          w.worker_id = 0 := by
        rw [List.count_eq_zero]
        intro hc
        exact hnodup.1 (mem_check_stale_mem_ids now thr vs _ hc)
      rw [LLMMonitorDaemon.check_stale_workers] at hrest
      simp [List.count_cons, hrest]
    · have hvne : v.worker_id ≠ w.worker_id := by
        intro he
        exact hnodup.1 (he ▸ List.mem_map_of_mem WorkerState.worker_id hmem2)
      have hih := ih hmem2 hnodup.2
      rw [LLMMonitorDaemon.check_stale_workers] at hih
      cases hft : LLMMonitorDaemon.stale_trigger now thr v with
      | none => exact hih
      | some x =>
        have hx : x = v.worker_id := stale_trigger_eq_some now thr v x hft
        subst hx
        simp [List.count_cons, hvne, hih]

/-- Witness for claim C2: the worker of the claim, idle 400s against a
300s threshold with status WORKING, is classified exactly once on the
tick. -/
theorem stale_worker_classified_once_witness :
    (LLMMonitorDaemon.check_stale_workers 400 300
      [⟨"doc-1", 1, 0, "WORKING", 0, none⟩]).count "doc-1" = 1 :=
  stale_noncomplete_nonstuck_classified_once 400 300
    [⟨"doc-1", 1, 0, "WORKING", 0, none⟩]
    ⟨"doc-1", 1, 0, "WORKING", 0, none⟩
    (List.mem_singleton_self _) (by decide) (by decide) (by decide)

/-- Claim C3.  The claim (and the source docstring) state that
`is_stale(threshold)` holds iff the elapsed time since `last_activity`
exceeds the threshold, for every threshold ≥ 0.  The code computes the
`seconds` component of the elapsed timedelta — elapsed whole seconds
modulo one day — so it violates the claim: a worker idle one day plus
100 seconds against a 300-second threshold has elapsed time 86500 > 300
yet `is_stale` returns `false`.  This theorem evaluates the embedded
code at that input. -/
theorem is_stale_ignores_whole_days :
    (⟨"doc-1", 1, 0, "WORKING", 0, none⟩ : WorkerState).is_stale 86500 300
      = false ∧
    86500 - (⟨"doc-1", 1, 0, "WORKING", 0, none⟩ : WorkerState).last_activity
      > 300 := by
  constructor
  · decide
  · decide

/-- Claim C4, counterexample.  The claim asserts that a classifier
response that parses but carries a status or action outside the closed
enumerations is rejected like a parse failure (status=error,
action=none, confidence=0).  The code performs no such validation: a
parsed response with status `hallucinating` and action `launch` — both
outside the enumerations — is returned with those raw values, not as
the error decision. -/
theorem invalid_enum_response_forwarded :
    (WorkerAnalyzer.analyze_worker (CallOutcome.parsed
        ⟨some "hallucinating", some "launch", none, some "made it up",
          some 95⟩)).status = "hallucinating" ∧
    (WorkerAnalyzer.analyze_worker (CallOutcome.parsed
        ⟨some "hallucinating", some "launch", none, some "made it up",
          some 95⟩)).action = "launch" ∧
    (WorkerAnalyzer.analyze_worker (CallOutcome.parsed
        ⟨some "hallucinating", some "launch", none, some "made it up",
          some 95⟩)).confidence = 95 ∧
    "hallucinating" ∉ validStatuses ∧
    "launch" ∉ validActions := by
  refine ⟨rfl, rfl, rfl, ?_, ?_⟩
  · decide
  · decide

/-- Claim C4 as amended: the caller performs no enumeration validation.
Every response that parses with its status, action and confidence keys
present is forwarded downstream exactly as parsed — raw status and
action strings included, whether or not they lie inside the closed
enumerations; only parse failures, call errors and missing keys yield
the synthesized error decision. -/
theorem parsed_response_forwarded_raw (r : ParsedResponse)
    (s a : String) (c : Nat)
    (hs : r.status = some s) (ha : r.action = some a)
    (hc : r.confidence = some c) :
    WorkerAnalyzer.analyze_worker (CallOutcome.parsed r) =
      { status := s, action := a, keys := r.keys,
        reasoning := r.reasoning, confidence := c } := by
  simp [WorkerAnalyzer.analyze_worker, hs, ha, hc]

/-- Witness for claim C4 as amended: a fully out-of-enumeration
response is forwarded verbatim. -/
theorem parsed_response_forwarded_raw_witness :
    WorkerAnalyzer.analyze_worker (CallOutcome.parsed
        ⟨some "banana", some "reboot", some "Z", some "why not", some 7⟩)
      = { status := "banana", action := "reboot", keys := some "Z",
          reasoning := some "why not", confidence := 7 } :=
  parsed_response_forwarded_raw
    ⟨some "banana", some "reboot", some "Z", some "why not", some 7⟩
    "banana" "reboot" 7 rfl rfl rfl

/-- Claim C5, counterexample.  The claim asserts that a status=ERROR
decision leaves `consecutive_stuck_count` unchanged.  The code takes
the `else` branch for every status outside stuck/confused and resets
the counter to 0: a worker with a streak of 2 processing an ERROR
decision ends with counter 0, not 2. -/
theorem error_status_clears_streak_counterexample :
    (LLMMonitorDaemon.apply_analysis true true
        ⟨"doc-1", 1, 0, "stuck", 2, none⟩
        ⟨"error", "none", none, some "Analysis failed: timed out", 0⟩
      ).worker.consecutive_stuck_count ≠ 2 := by
  decide

/-- Claim C5 as amended: every pass that completes — the executor does
not raise the missing-reasoning `KeyError`, which holds in particular
for every analyzer-synthesized error decision, since those carry
action none — over a decision with status=ERROR resets
`consecutive_stuck_count` to 0, for every worker and every prior
counter value: ERROR never increments the counter and clears any
existing streak.  (A status=ERROR decision that does raise leaves the
counter at its prior value and kills the daemon.) -/
theorem error_status_resets_streak (aa sk : Bool) (w : WorkerState)
    (a : Analysis) (h : a.status = "error")
    (hok : (LLMMonitorDaemon.apply_analysis aa sk w a).raised = false) :
    (LLMMonitorDaemon.apply_analysis aa sk w a
      ).worker.consecutive_stuck_count = 0 := by
  by_cases hn : a.action = "none"
  · simp [LLMMonitorDaemon.apply_analysis, hn, h]
  · by_cases hk : (ActionExecutor.execute aa sk w.worker_id w.window_num
        a).raisedKeyError = true
    · simp [LLMMonitorDaemon.apply_analysis, hn, hk] at hok
    · simp [LLMMonitorDaemon.apply_analysis, hn, hk, h]

/-- Witness for claim C5 as amended: a worker with a streak of 1
processing the decision synthesized from a classifier timeout ends with
counter 0. -/
theorem error_status_resets_streak_witness :
    (LLMMonitorDaemon.apply_analysis true true
        ⟨"doc-2", 2, 0, "working", 1, none⟩
        ⟨"error", "none", none, some "Analysis failed: timed out", 0⟩
      ).worker.consecutive_stuck_count = 0 :=
  error_status_resets_streak true true ⟨"doc-2", 2, 0, "working", 1, none⟩
    ⟨"error", "none", none, some "Analysis failed: timed out", 0⟩ rfl
    (by decide)

/-- Claim C6: every classifier call that fails — unparseable response
or any call error, a timeout included — makes the analyzer return the
synthesized decision with status=error, action=none, confidence=0 and a
justification embedding the failure text; the failure never escapes
this boundary (the embedded analyzer is a total function into
decisions). -/
theorem classifier_failure_yields_error_decision (e : String) :
    WorkerAnalyzer.analyze_worker (CallOutcome.parseError e) =
      { status := "error", action := "none", keys := none,
        reasoning := some ("Failed to parse LLM response: " ++ e),
        confidence := 0 } ∧
    WorkerAnalyzer.analyze_worker (CallOutcome.callError e) =
      { status := "error", action := "none", keys := none,
        reasoning := some ("Analysis failed: " ++ e),
        confidence := 0 } :=
  ⟨rfl, rfl⟩

/-- Claim C7: with the global auto-approval switch disabled, executing
a decision whose action is approve or send_keys forwards no keystrokes
to tmux, yet still appends exactly one record to each of the two
audit-log forms, returns normally, and reports the action as not
applied. -/
theorem auto_approve_disabled_logs_without_keystrokes (sk : Bool)
    (worker_id : String) (window : Nat) (a : Analysis)
    (h : a.action = "approve" ∨ a.action = "send_keys") :
    (ActionExecutor.execute false sk worker_id window a).sentKeys = [] ∧
    (ActionExecutor.execute false sk worker_id window a).humanLog.length
      = 1 ∧
    (ActionExecutor.execute false sk worker_id window a).jsonLog.length
      = 1 ∧
    (ActionExecutor.execute false sk worker_id window a).outcome
      = ExecReturn.ok false := by
  rcases h with h | h <;> simp [ActionExecutor.execute, h]

/-- Witness for claim C7: the approve decision of the spec example,
executed with auto-approval disabled. -/
theorem auto_approve_disabled_witness :
    (ActionExecutor.execute false true "build-1" 1
        ⟨"stuck", "approve", some "Y", some "yes/no prompt", 90⟩
      ).sentKeys = [] ∧
    (ActionExecutor.execute false true "build-1" 1
        ⟨"stuck", "approve", some "Y", some "yes/no prompt", 90⟩
      ).humanLog.length = 1 ∧
    (ActionExecutor.execute false true "build-1" 1
        ⟨"stuck", "approve", some "Y", some "yes/no prompt", 90⟩
      ).jsonLog.length = 1 ∧
    (ActionExecutor.execute false true "build-1" 1
        ⟨"stuck", "approve", some "Y", some "yes/no prompt", 90⟩
      ).outcome = ExecReturn.ok false :=
  auto_approve_disabled_logs_without_keystrokes true "build-1" 1
    ⟨"stuck", "approve", some "Y", some "yes/no prompt", 90⟩ (Or.inl rfl)

/-- Claim C8, counterexample.  The claim asserts that every run of
exactly three consecutive stuck/confused classifications emits one
escalation at the third occurrence and does not stop the loop.  A
stuck decision with action intervene and no reasoning key — reachable,
since the classifier response is forwarded without validation — makes
`ActionExecutor.execute` raise `KeyError` on the very first pass: the
daemon dies with zero escalation entries, only one of the three
decisions processed, and the counter untouched. -/
theorem stuck_run_crash_counterexample :
    ((LLMMonitorDaemon.processRun true true
        ⟨"doc-1", 1, 0, "WORKING", 0, none⟩
        [⟨"stuck", "intervene", none, none, 60⟩,
         ⟨"stuck", "none", none, none, 60⟩,
         ⟨"stuck", "none", none, none, 60⟩]).2.map
        PassResult.escalated).count true = 0 ∧
    (LLMMonitorDaemon.processRun true true
        ⟨"doc-1", 1, 0, "WORKING", 0, none⟩
        [⟨"stuck", "intervene", none, none, 60⟩,
         ⟨"stuck", "none", none, none, 60⟩,
         ⟨"stuck", "none", none, none, 60⟩]).2.length = 1 ∧
    (LLMMonitorDaemon.processRun true true
        ⟨"doc-1", 1, 0, "WORKING", 0, none⟩
        [⟨"stuck", "intervene", none, none, 60⟩,
         ⟨"stuck", "none", none, none, 60⟩,
         ⟨"stuck", "none", none, none, 60⟩]).2.map PassResult.raised
      = [true] ∧
    (LLMMonitorDaemon.processRun true true
        ⟨"doc-1", 1, 0, "WORKING", 0, none⟩
        [⟨"stuck", "intervene", none, none, 60⟩,
         ⟨"stuck", "none", none, none, 60⟩,
         ⟨"stuck", "none", none, none, 60⟩]).1.consecutive_stuck_count
      = 0 := by
  decide

/-- Claim C8 as amended: starting from a zero streak, a run of exactly
three consecutive stuck/confused classifications, each of whose
decisions completes its pass (action none, or a reasoning key present,
so the executor never raises the missing-reasoning `KeyError`), emits
the elevated-severity escalation entry exactly once, at the third
occurrence; no pass aborts, the worker stays tracked with its freshly
classified status, and nothing stops the loop. -/
theorem three_consecutive_stuck_one_escalation (aa sk : Bool)
    (w : WorkerState) (a1 a2 a3 : Analysis)
    (hw : w.consecutive_stuck_count = 0)
    (h1 : a1.status = "stuck" ∨ a1.status = "confused")
    (h2 : a2.status = "stuck" ∨ a2.status = "confused")
    (h3 : a3.status = "stuck" ∨ a3.status = "confused")
    (hc1 : a1.action = "none" ∨ ∃ r, a1.reasoning = some r)
    (hc2 : a2.action = "none" ∨ ∃ r, a2.reasoning = some r)
    (hc3 : a3.action = "none" ∨ ∃ r, a3.reasoning = some r) :
    (LLMMonitorDaemon.processRun aa sk w [a1, a2, a3]).2.map
        PassResult.escalated = [false, false, true] ∧
    (LLMMonitorDaemon.processRun aa sk w [a1, a2, a3]).2.map
        PassResult.raised = [false, false, false] ∧
    (LLMMonitorDaemon.processRun aa sk w
        [a1, a2, a3]).1.consecutive_stuck_count = 3 ∧
    (LLMMonitorDaemon.processRun aa sk w [a1, a2, a3]).1.status
      = a3.status := by
  have p1 := apply_analysis_stuck aa sk w a1 h1 hc1
  have p2 := apply_analysis_stuck aa sk
    (LLMMonitorDaemon.apply_analysis aa sk w a1).worker a2 h2 hc2
  have p3 := apply_analysis_stuck aa sk
    (LLMMonitorDaemon.apply_analysis aa sk
      (LLMMonitorDaemon.apply_analysis aa sk w a1).worker a2).worker a3
    h3 hc3
  rw [hw] at p1
  rw [p1.1] at p2
  rw [p2.1] at p3
  simp [LLMMonitorDaemon.processRun, p1.1, p1.2.1, p1.2.2.2, p2.1,
    p2.2.1, p2.2.2.2, p3.1, p3.2.1, p3.2.2.1, p3.2.2.2]

/-- Witness for claim C8 as amended: a stuck, confused, stuck run of
completing decisions (the third recommending intervention with its
reasoning present) from a fresh worker escalates exactly once, at the
third pass, aborting nothing. -/
theorem three_consecutive_stuck_witness :
    (LLMMonitorDaemon.processRun true true
        ⟨"doc-1", 1, 0, "WORKING", 0, none⟩
        [⟨"stuck", "none", none, some "waiting on approval", 60⟩,
         ⟨"confused", "none", none, none, 55⟩,
         ⟨"stuck", "intervene", none, some "needs a human", 70⟩]).2.map
        PassResult.escalated = [false, false, true] ∧
    (LLMMonitorDaemon.processRun true true
        ⟨"doc-1", 1, 0, "WORKING", 0, none⟩
        [⟨"stuck", "none", none, some "waiting on approval", 60⟩,
         ⟨"confused", "none", none, none, 55⟩,
         ⟨"stuck", "intervene", none, some "needs a human", 70⟩]).2.map
        PassResult.raised = [false, false, false] ∧
    (LLMMonitorDaemon.processRun true true
        ⟨"doc-1", 1, 0, "WORKING", 0, none⟩
        [⟨"stuck", "none", none, some "waiting on approval", 60⟩,
         ⟨"confused", "none", none, none, 55⟩,
         ⟨"stuck", "intervene", none, some "needs a human",
           70⟩]).1.consecutive_stuck_count = 3 ∧
    (LLMMonitorDaemon.processRun true true
        ⟨"doc-1", 1, 0, "WORKING", 0, none⟩
        [⟨"stuck", "none", none, some "waiting on approval", 60⟩,
         ⟨"confused", "none", none, none, 55⟩,
         ⟨"stuck", "intervene", none, some "needs a human", 70⟩]).1.status
      = (⟨"stuck", "intervene", none, some "needs a human", 70⟩
          : Analysis).status :=
  three_consecutive_stuck_one_escalation true true
    ⟨"doc-1", 1, 0, "WORKING", 0, none⟩
    ⟨"stuck", "none", none, some "waiting on approval", 60⟩
    ⟨"confused", "none", none, none, 55⟩
    ⟨"stuck", "intervene", none, some "needs a human", 70⟩
    rfl (Or.inl rfl) (Or.inr rfl) (Or.inl rfl)
    (Or.inl rfl) (Or.inl rfl) (Or.inr ⟨"needs a human", rfl⟩)

/-- Claim C9: the pane snapshot is total at its interface — for every
window and line count it returns the captured text exactly when the
subprocess completed with exit status 0, and `none` in every other case
(non-zero exit status, timeout, any raised exception); no outcome
escapes as a failure. -/
theorem capture_pane_total_interface (window lines : Nat)
    (o : SubprocOutcome) :
    ((∃ s, TmuxInterface.capture_pane window lines o = some s) ∨
      TmuxInterface.capture_pane window lines o = none) ∧
    (∀ s, TmuxInterface.capture_pane window lines o = some s ↔
      o = SubprocOutcome.completed 0 s) := by
  constructor
  · cases h : TmuxInterface.capture_pane window lines o
    · exact Or.inr rfl
    · exact Or.inl ⟨_, rfl⟩
  · intro s
    cases o with
    | completed rc out =>
      by_cases hrc : rc = 0 <;> simp [TmuxInterface.capture_pane, hrc]
    | raised e => simp [TmuxInterface.capture_pane]

/-- Claim C10: a decision whose action string lies outside the
recognized set {none, intervene, approve, send_keys} is still appended
once to each audit-log form, sends no keystrokes, and the executor
returns failure normally (no branch subscripts the reasoning key) —
with the auto-approval switch in either position. -/
theorem unknown_action_logged_not_sent (aa sk : Bool)
    (worker_id : String) (window : Nat) (a : Analysis)
    (h : a.action ∉ validActions) :
    (ActionExecutor.execute aa sk worker_id window a).humanLog.length
      = 1 ∧
    (ActionExecutor.execute aa sk worker_id window a).jsonLog.length
      = 1 ∧
    (ActionExecutor.execute aa sk worker_id window a).sentKeys = [] ∧
    (ActionExecutor.execute aa sk worker_id window a).outcome
      = ExecReturn.ok false := by
  simp [validActions] at h
  obtain ⟨h1, h2, h3, h4⟩ := h
  cases aa <;> simp [ActionExecutor.execute, h1, h2, h3, h4]

/-- Witness for claim C10: an unrecognized action string is logged to
both forms, sends nothing, and fails. -/
theorem unknown_action_logged_not_sent_witness :
    (ActionExecutor.execute true true "doc-3" 3
        ⟨"working", "restart", none, some "made up action", 50⟩
      ).humanLog.length = 1 ∧
    (ActionExecutor.execute true true "doc-3" 3
        ⟨"working", "restart", none, some "made up action", 50⟩
      ).jsonLog.length = 1 ∧
    (ActionExecutor.execute true true "doc-3" 3
        ⟨"working", "restart", none, some "made up action", 50⟩
      ).sentKeys = [] ∧
    (ActionExecutor.execute true true "doc-3" 3
        ⟨"working", "restart", none, some "made up action", 50⟩
      ).outcome = ExecReturn.ok false :=
  unknown_action_logged_not_sent true true "doc-3" 3
    ⟨"working", "restart", none, some "made up action", 50⟩ (by decide)
